import Mathlib

/-!
# Verification of the VortexEngine renderer core

Shallow embedding of the renderer-core subsystems of the VortexEngine
repository: the frame-synchronization controller (`SyncObjects`), the buffer
allocator (`BufferAllocator`), the command recording surface (`CommandBuffer`),
the shader cache (`ShaderSystem`) and the pipeline cache (`PipelineSystem`).

Opaque Vulkan handles are modelled as natural numbers with `0` playing the
role of `VK_NULL_HANDLE`.  Unsigned machine arithmetic (`uint32_t`, `size_t`,
`VkDeviceSize`) is modelled on `Nat` with explicit reduction modulo `2 ^ 32`
or `2 ^ 64` at every operation the C++ performs on such a type.  Native
Vulkan entry points (`vkCreateBuffer`, `vkAllocateMemory`, ...) are modelled
by an explicit environment recording whether each call succeeds and which
fresh handle it returns.
-/

namespace VortexEngine

/-- Modulus of `uint32_t` arithmetic. -/
def U32 : Nat := 2 ^ 32

/-- Modulus of `size_t` / `VkDeviceSize` (64-bit) arithmetic. -/
def U64 : Nat := 2 ^ 64

/-- Wrapping 64-bit subtraction `a - b` on unsigned operands (`a < 2^64`). -/
def sub64 (a b : Nat) : Nat := (a % U64 + (U64 - b % U64)) % U64

/-- Wrapping 32-bit subtraction `a - b` on unsigned operands (`a < 2^32`). -/
def sub32 (a b : Nat) : Nat := (a % U32 + (U32 - b % U32)) % U32

/-! ## Frame synchronization (`SyncObjects`, synchronization.h / .cpp)

State of one `SyncObjects` instance: `m_maxFramesInFlight`, `m_currentFrame`
and `m_framesInFlight` are `uint32_t` members; `m_isValid` is set by
`create()` and cleared by `destroy()`.  The fence/semaphore handles do not
influence the counters and are not part of this model. -/

structure SyncState where
  maxFramesInFlight : Nat
  currentFrame : Nat
  framesInFlight : Nat
  isValid : Bool
  deriving Repr, DecidableEq

namespace SyncObjects

/-- `SyncObjects::SyncObjects(device, maxFramesInFlight)`: counters start at
zero and the object is not yet valid. -/
def construct (maxFramesInFlight : Nat) : SyncState :=
  { maxFramesInFlight := maxFramesInFlight, currentFrame := 0,
    framesInFlight := 0, isValid := false }

/-- `SyncObjects::create()` on the path where semaphore and fence creation
succeed: sets `m_isValid = true` (early-returns if already valid). -/
def create (s : SyncState) : SyncState :=
  if s.isValid then s else { s with isValid := true }

/-- `SyncObjects::beginFrame()`: guarded by `m_isValid`; waits on the fence
(no counter change), resets it, then increments `m_framesInFlight`
(`uint32_t` increment). -/
def beginFrame (s : SyncState) : SyncState :=
  if s.isValid = false then s
  else { s with framesInFlight := (s.framesInFlight + 1) % U32 }

/-- `SyncObjects::endFrame()`: guarded by `m_isValid`; decrements
`m_framesInFlight` (`uint32_t` decrement, wrapping at zero). -/
def endFrame (s : SyncState) : SyncState :=
  if s.isValid = false then s
  else { s with framesInFlight := (s.framesInFlight + (U32 - 1)) % U32 }

/-- `SyncObjects::nextFrame()`: guarded by `m_isValid`;
`m_currentFrame = (m_currentFrame + 1) % m_maxFramesInFlight`. -/
def nextFrame (s : SyncState) : SyncState :=
  if s.isValid = false then s
  else { s with currentFrame := (s.currentFrame + 1) % s.maxFramesInFlight }

end SyncObjects

/-- One step of the frame protocol. -/
inductive SyncOp
  | beginF
  | endF
  | nextF
  deriving Repr, DecidableEq

/-- Dispatch one protocol step to the corresponding member function. -/
def SyncState.step (s : SyncState) : SyncOp → SyncState
  | SyncOp.beginF => SyncObjects.beginFrame s
  | SyncOp.endF => SyncObjects.endFrame s
  | SyncOp.nextF => SyncObjects.nextFrame s

/-- Run a sequence of protocol steps. -/
def syncRun : SyncState → List SyncOp → SyncState
  | s, [] => s
  | s, op :: ops => syncRun (s.step op) ops

/-- All states visited while running a sequence of protocol steps,
including the initial and final states. -/
def syncStates : SyncState → List SyncOp → List SyncState
  | s, [] => [s]
  | s, op :: ops => s :: syncStates (s.step op) ops

/-- The well-formed frame loop of `n` frames: each `beginFrame` is followed
by its `endFrame` and `nextFrame` before the next `beginFrame`. -/
def frameProtocol : Nat → List SyncOp
  | 0 => []
  | n + 1 => SyncOp.beginF :: SyncOp.endF :: SyncOp.nextF :: frameProtocol n

/-- A `SyncObjects` instance created with `maxFramesInFlight = 2`. -/
def syncInit2 : SyncState := SyncObjects.create (SyncObjects.construct 2)

/-! ## Buffer allocator (`BufferAllocator`, buffer_allocator.h / .cpp)

Vulkan handles are naturals with `0` as `VK_NULL_HANDLE`.  The native calls
made by the allocator are modelled by a `VkEnv` environment: each `...Ok`
flag tells whether the corresponding native call succeeds, and the handle
seeds determine the (non-null) handle a successful creation returns.  The
device's memory-property table is carried in the environment so that
properties-related statements can be expressed; the allocator source never
consults it (its fallback path hardcodes `memoryTypeIndex = 0`). -/

/-- `BufferAllocator::BufferType`.  `Count` is the array-size sentinel of the
C++ enum; it is also the `type` of a default-constructed allocation. -/
inductive BufferType
  | Vertex
  | Index
  | Uniform
  | Storage
  | Staging
  | Indirect
  | Count
  deriving Repr, DecidableEq

/-- Position of a buffer type inside the `m_alignments` array. -/
def BufferType.arrayIndex : BufferType → Nat
  | BufferType.Vertex => 0
  | BufferType.Index => 1
  | BufferType.Uniform => 2
  | BufferType.Storage => 3
  | BufferType.Staging => 4
  | BufferType.Indirect => 5
  | BufferType.Count => 6

/-- `BufferAllocator::BufferAllocation` with its in-class default values;
`mappedPtr` is a host-pointer handle (`0` = `nullptr`). -/
structure BufferAllocation where
  buffer : Nat := 0
  memory : Nat := 0
  size : Nat := 0
  offset : Nat := 0
  mappedPtr : Nat := 0
  type : BufferType := BufferType.Count
  persistentMapping : Bool := false
  deriving Repr, DecidableEq

/-- `BufferAllocator::BufferPool` with its in-class default values. -/
structure BufferPool where
  type : BufferType
  buffer : Nat := 0
  memory : Nat := 0
  totalSize : Nat := 0
  usedSize : Nat := 0
  alignment : Nat := 0
  allocations : List BufferAllocation := []
  deriving Repr, DecidableEq

/-- The two `VkPhysicalDeviceLimits` fields read by `initialize`. -/
structure DeviceLimits where
  minUniformBufferOffsetAlignment : Nat
  minStorageBufferOffsetAlignment : Nat
  deriving Repr, DecidableEq

/-- Environment for the native calls of the allocator. -/
structure VkEnv where
  limits : DeviceLimits
  memoryTypePropertyFlags : List Nat
  createBufferOk : Bool
  allocateMemoryOk : Bool
  bindOk : Bool
  bufferHandleSeed : Nat
  memoryHandleSeed : Nat
  memoryManagerMemory : Nat
  deriving Repr, DecidableEq

/-- Members of `BufferAllocator` with their in-class default values.  The
`m_alignments` array is value-initialized to six zeros. -/
structure AllocatorState where
  device : Nat := 0
  physicalDevice : Nat := 0
  hasMemoryManager : Bool := false
  allocations : List BufferAllocation := []
  bufferMap : List (Nat × BufferAllocation) := []
  bufferPools : List BufferPool := []
  totalAllocatedMemory : Nat := 0
  bufferCount : Nat := 0
  allocationCount : Nat := 0
  initialized : Bool := false
  alignments : List Nat := [0, 0, 0, 0, 0, 0]
  deriving Repr, DecidableEq

/-- Update or append a key in the `m_bufferMap` association list. -/
def mapInsertNat (m : List (Nat × BufferAllocation)) (k : Nat)
    (v : BufferAllocation) : List (Nat × BufferAllocation) :=
  if m.any (fun p => decide (p.1 = k)) then
    m.map (fun p => if p.1 = k then (k, v) else p)
  else m ++ [(k, v)]

namespace BufferAllocator

/-- `BufferAllocator::initialize` (renamed `initAllocator` here): stores the
handles, computes the per-type alignment array from the device limits and
sets `m_initialized`. -/
def initAllocator (s : AllocatorState) (env : VkEnv)
    (device physicalDevice : Nat) (hasMM : Bool) : Bool × AllocatorState :=
  if s.initialized then (true, s)
  else
    (true, { s with
      device := device
      physicalDevice := physicalDevice
      hasMemoryManager := hasMM
      alignments := [
        max env.limits.minUniformBufferOffsetAlignment 1,
        max env.limits.minUniformBufferOffsetAlignment 1,
        max env.limits.minUniformBufferOffsetAlignment 256,
        max env.limits.minStorageBufferOffsetAlignment 1,
        max env.limits.minUniformBufferOffsetAlignment 1,
        max env.limits.minUniformBufferOffsetAlignment 1]
      initialized := true })

/-- `BufferAllocator::getAlignmentRequirement`: reads `m_alignments[type]`. -/
def getAlignmentRequirement (s : AllocatorState) (t : BufferType) : Nat :=
  s.alignments.getD t.arrayIndex 0

/-- `BufferAllocator::updateBufferTracking`: on allocation the counters grow;
on deallocation each counter is `std::max(0, counter - size_or_one)` computed
in unsigned (wrapping) arithmetic. -/
def updateBufferTracking (s : AllocatorState) (a : BufferAllocation)
    (allocate : Bool) : AllocatorState :=
  if allocate then
    { s with
      totalAllocatedMemory := (s.totalAllocatedMemory + a.size) % U64
      bufferCount := (s.bufferCount + 1) % U64
      allocationCount := (s.allocationCount + 1) % U32 }
  else
    { s with
      totalAllocatedMemory := max 0 (sub64 s.totalAllocatedMemory a.size)
      bufferCount := max 0 (sub64 s.bufferCount 1)
      allocationCount := max 0 (sub32 s.allocationCount 1) }

/-- `BufferAllocator::createBufferInternal`: creates the buffer, obtains
backing memory (from the memory manager if present, else by a direct
fallback allocation with hardcoded `memoryTypeIndex = 0`), binds it and
records the allocation.  Every failure path returns the empty allocation and
leaves the tracking state untouched. -/
def createBufferInternal (s : AllocatorState) (env : VkEnv)
    (size usage properties : Nat) (type : BufferType) :
    BufferAllocation × AllocatorState :=
  if env.createBufferOk = false then ({}, s)
  else
    let buf : Nat := env.bufferHandleSeed + 1
    let memResult : Option Nat :=
      if s.hasMemoryManager then some env.memoryManagerMemory
      else if env.allocateMemoryOk then some (env.memoryHandleSeed + 1)
      else none
    match memResult with
    | none => ({}, s)
    | some mem =>
      if env.bindOk = false then ({}, s)
      else
        let alloc : BufferAllocation :=
          { buffer := buf, memory := mem, size := size, offset := 0,
            mappedPtr := 0, type := type, persistentMapping := false }
        (alloc, updateBufferTracking
          { s with
            allocations := s.allocations ++ [alloc]
            bufferMap := mapInsertNat s.bufferMap buf alloc } alloc true)

/-- `BufferAllocator::allocateBuffer`: not-initialized returns the empty
allocation, otherwise delegates to `createBufferInternal`. -/
def allocateBuffer (s : AllocatorState) (env : VkEnv) (type : BufferType)
    (size usage properties : Nat) : BufferAllocation × AllocatorState :=
  if s.initialized = false then ({}, s)
  else createBufferInternal s env size usage properties type

/-- `BufferAllocator::destroyBufferInternal`: destroys the native objects and
erases the buffer from `m_bufferMap` (counters untouched). -/
def destroyBufferInternal (s : AllocatorState) (a : BufferAllocation) :
    AllocatorState :=
  if a.buffer = 0 then s
  else { s with bufferMap := s.bufferMap.filter (fun p => decide (p.1 ≠ a.buffer)) }

/-- `BufferAllocator::deallocateBuffer`: no-op when not initialized or on a
null-handle allocation; otherwise destroys the buffer and decrements the
tracking counters. -/
def deallocateBuffer (s : AllocatorState) (a : BufferAllocation) :
    AllocatorState :=
  if s.initialized = false ∨ a.buffer = 0 then s
  else updateBufferTracking (destroyBufferInternal s a) a false

/-- `BufferAllocator::createBufferPoolInternal`: creates the pool's buffer
and memory; on any native failure the pool's handles stay null. -/
def createBufferPoolInternal (s : AllocatorState) (env : VkEnv)
    (pool : BufferPool) : BufferPool :=
  if env.createBufferOk = false then pool
  else
    let buf : Nat := env.bufferHandleSeed + 1
    let memResult : Option Nat :=
      if s.hasMemoryManager then some env.memoryManagerMemory
      else if env.allocateMemoryOk then some (env.memoryHandleSeed + 1)
      else none
    match memResult with
    | none => pool
    | some mem =>
      if env.bindOk = false then pool
      else { pool with buffer := buf, memory := mem }

/-- `BufferAllocator::createBufferPool`: builds a pool record with
`usedSize = 0` and the type's alignment, creates its backing buffer and
appends it to `m_bufferPools` on success. -/
def createBufferPool (s : AllocatorState) (env : VkEnv) (type : BufferType)
    (size : Nat) : Bool × AllocatorState :=
  if s.initialized = false then (false, s)
  else
    let pool0 : BufferPool :=
      { type := type, totalSize := size,
        alignment := getAlignmentRequirement s type }
    let pool := createBufferPoolInternal s env pool0
    if pool.buffer ≠ 0 then (true, { s with bufferPools := s.bufferPools ++ [pool] })
    else (false, s)

/-- Scan of `m_bufferPools` performed by `allocateFromPool`: first pool of
matching type whose remaining space `totalSize - usedSize` (unsigned
subtraction) is at least `size` grants a bump-pointer sub-allocation. -/
def allocateFromPoolLoop :
    List BufferPool → BufferType → Nat →
      Option (BufferAllocation × List BufferPool)
  | [], _, _ => none
  | pool :: rest, type, size =>
    if pool.type = type ∧ size ≤ sub64 pool.totalSize pool.usedSize then
      let alloc : BufferAllocation :=
        { buffer := pool.buffer, memory := 0, size := size,
          offset := pool.usedSize, mappedPtr := 0, type := type,
          persistentMapping := false }
      some (alloc,
        { pool with
          usedSize := (pool.usedSize + size) % U64
          allocations := pool.allocations ++ [alloc] } :: rest)
    else
      match allocateFromPoolLoop rest type size with
      | none => none
      | some (a, rest1) => some (a, pool :: rest1)

/-- `BufferAllocator::allocateFromPool`: returns the empty allocation when
not initialized or when no pool fits; a granted request also bumps the
tracking counters. -/
def allocateFromPool (s : AllocatorState) (type : BufferType) (size : Nat) :
    BufferAllocation × AllocatorState :=
  if s.initialized = false then ({}, s)
  else
    match allocateFromPoolLoop s.bufferPools type size with
    | some (a, pools1) =>
      (a, updateBufferTracking { s with bufferPools := pools1 } a true)
    | none => ({}, s)

/-- Scan of `m_bufferPools` performed by `deallocateFromPool`: the first
pool whose buffer handle matches has the allocation's bookkeeping entries
removed; the flag reports whether a pool matched. -/
def deallocFromPoolLoop :
    List BufferPool → BufferAllocation → List BufferPool × Bool
  | [], _ => ([], false)
  | pool :: rest, a =>
    if pool.buffer = a.buffer then
      ({ pool with
          allocations := pool.allocations.filter
            (fun al => decide (¬ (al.offset = a.offset ∧ al.size = a.size))) }
        :: rest, true)
    else
      let r := deallocFromPoolLoop rest a
      (pool :: r.1, r.2)

/-- `BufferAllocator::deallocateFromPool`: removes bookkeeping only (the bump
offset is not reclaimed) and unconditionally decrements the tracking
counters whenever a pool with the allocation's buffer handle exists. -/
def deallocateFromPool (s : AllocatorState) (a : BufferAllocation) :
    AllocatorState :=
  if s.initialized = false ∨ a.buffer = 0 then s
  else
    let r := deallocFromPoolLoop s.bufferPools a
    if r.2 then updateBufferTracking { s with bufferPools := r.1 } a false
    else { s with bufferPools := r.1 }

/-- Invariant checked on every pool of the allocator: the bump offset never
passes the pool size, and sizes fit in `VkDeviceSize`. -/
def poolsOk (s : AllocatorState) : Bool :=
  s.bufferPools.all (fun q => decide (q.usedSize ≤ q.totalSize ∧ q.totalSize < U64))

/-- Final state after a sequence of `allocateFromPool` requests. -/
def runPoolRequests (s : AllocatorState) :
    List (BufferType × Nat) → AllocatorState
  | [] => s
  | r :: rs => runPoolRequests (allocateFromPool s r.1 r.2).2 rs

/-- All states visited along a sequence of `allocateFromPool` requests. -/
def poolStates (s : AllocatorState) :
    List (BufferType × Nat) → List AllocatorState
  | [] => [s]
  | r :: rs => s :: poolStates (allocateFromPool s r.1 r.2).2 rs

end BufferAllocator

/-! ### Concrete instances used by witnesses and counterexamples -/

/-- Device environment in which every native call succeeds; the device's
only memory type has no property flags set. -/
def envOkay : VkEnv :=
  { limits := { minUniformBufferOffsetAlignment := 0,
                minStorageBufferOffsetAlignment := 0 }
    memoryTypePropertyFlags := [0]
    createBufferOk := true
    allocateMemoryOk := true
    bindOk := true
    bufferHandleSeed := 10
    memoryHandleSeed := 20
    memoryManagerMemory := 0 }

/-- Freshly initialized allocator (no memory-manager collaborator). -/
def allocInit : AllocatorState :=
  (BufferAllocator.initAllocator {} envOkay 1 2 false).2

/-- Allocator with one 100-byte uniform pool. -/
def poolState : AllocatorState :=
  (BufferAllocator.createBufferPool allocInit envOkay BufferType.Uniform 100).2

/-- The pool record held by `poolState`. -/
def poolQ : BufferPool :=
  { type := BufferType.Uniform, buffer := 11, memory := 21,
    totalSize := 100, usedSize := 0, alignment := 256, allocations := [] }

/-- A 16-byte sub-allocation taken from the pool of `poolState`. -/
def poolAllocResult : BufferAllocation × AllocatorState :=
  BufferAllocator.allocateFromPool poolState BufferType.Uniform 16

/-- State after deallocating the pool sub-allocation once. -/
def afterFirstPoolFree : AllocatorState :=
  BufferAllocator.deallocateFromPool poolAllocResult.2 poolAllocResult.1

/-- State after deallocating the same pool sub-allocation a second time. -/
def afterSecondPoolFree : AllocatorState :=
  BufferAllocator.deallocateFromPool afterFirstPoolFree poolAllocResult.1

/-- An allocation record of size 16, used to exercise counter underflow. -/
def underflowAlloc : BufferAllocation := { size := 16 }

/-! ## Command recording surface (`CommandBuffer`, command_buffer.cpp)

The recorded native commands (`vkCmd*` calls) are kept in an explicit log so
that "issues no native command" is expressible.  Float-valued parameters
(line width, depth bias) are opaque and not carried in the log. -/

/-- The `VkImageLayout` values relevant to the command surface. -/
inductive VkImageLayout
  | undefined
  | general
  | colorAttachmentOptimal
  | depthStencilAttachmentOptimal
  | shaderReadOnlyOptimal
  | transferSrcOptimal
  | transferDstOptimal
  | presentSrcKHR
  deriving Repr, DecidableEq

/-- Pipeline stages used as barrier source/destination stages. -/
inductive VkPipelineStage
  | topOfPipe
  | transfer
  | fragmentShader
  | earlyFragmentTests
  deriving Repr, DecidableEq

/-- `VK_ACCESS_TRANSFER_WRITE_BIT`. -/
def ACCESS_TRANSFER_WRITE : Nat := 4096

/-- `VK_ACCESS_SHADER_READ_BIT`. -/
def ACCESS_SHADER_READ : Nat := 32

/-- `VK_ACCESS_DEPTH_STENCIL_ATTACHMENT_READ_BIT`. -/
def ACCESS_DEPTH_STENCIL_READ : Nat := 512

/-- `VK_ACCESS_DEPTH_STENCIL_ATTACHMENT_WRITE_BIT`. -/
def ACCESS_DEPTH_STENCIL_WRITE : Nat := 1024

/-- One native command recorded into the command buffer. -/
inductive Cmd
  | beginRenderPass (renderPass framebuffer : Nat)
  | endRenderPass
  | bindPipeline (pipeline : Nat)
  | bindVertexBuffers (buffer offset : Nat)
  | bindIndexBuffer (buffer offset : Nat)
  | bindDescriptorSets (layout : Nat) (sets : List Nat)
  | draw (vertexCount instanceCount firstVertex firstInstance : Nat)
  | drawIndexed (indexCount instanceCount firstIndex : Nat)
      (vertexOffset : Int) (firstInstance : Nat)
  | setViewport (first count : Nat)
  | setScissor (first count : Nat)
  | setLineWidth
  | setDepthBias
  | copyBuffer (src dst size srcOffset dstOffset : Nat)
  | pipelineBarrier (image : Nat) (oldLayout newLayout : VkImageLayout)
      (aspectMask srcAccess dstAccess : Nat)
      (srcStage dstStage : VkPipelineStage)
  | copyBufferToImage (buffer image width height layerCount : Nat)
  | blitImage (srcImage dstImage : Nat)
  deriving Repr, DecidableEq

/-- Members of `CommandBuffer` plus the log of issued native commands. -/
structure CommandBufferState where
  device : Nat := 0
  commandPool : Nat := 0
  commandBuffer : Nat := 0
  isRecording : Bool := false
  commands : List Cmd := []
  deriving Repr, DecidableEq

/-- Outcomes of the native begin/end/reset calls. -/
structure CmdEnv where
  beginOk : Bool
  endOk : Bool
  resetOk : Bool
  deriving Repr, DecidableEq

namespace CommandBuffer

/-- `CommandBuffer::beginRecording`: logged no-op when already recording;
otherwise calls `vkBeginCommandBuffer` and on success enters `Recording`. -/
def beginRecording (env : CmdEnv) (s : CommandBufferState) (flags : Nat) :
    CommandBufferState :=
  if s.isRecording then s
  else if env.beginOk = false then s
  else { s with isRecording := true }

/-- `CommandBuffer::endRecording`: logged no-op when not recording;
otherwise calls `vkEndCommandBuffer` and on success leaves `Recording`. -/
def endRecording (env : CmdEnv) (s : CommandBufferState) : CommandBufferState :=
  if s.isRecording = false then s
  else if env.endOk = false then s
  else { s with isRecording := false }

/-- `CommandBuffer::reset`: refused while recording; on success the native
reset empties the recorded commands. -/
def reset (env : CmdEnv) (s : CommandBufferState) : CommandBufferState :=
  if s.isRecording then s
  else if env.resetOk = false then s
  else { s with commands := [] }

/-- `CommandBuffer::beginRenderPass` (clear values are opaque). -/
def beginRenderPass (s : CommandBufferState) (renderPass framebuffer : Nat) :
    CommandBufferState :=
  if s.isRecording = false then s
  else { s with commands := s.commands ++ [Cmd.beginRenderPass renderPass framebuffer] }

/-- `CommandBuffer::endRenderPass`. -/
def endRenderPass (s : CommandBufferState) : CommandBufferState :=
  if s.isRecording = false then s
  else { s with commands := s.commands ++ [Cmd.endRenderPass] }

/-- `CommandBuffer::bindPipeline`. -/
def bindPipeline (s : CommandBufferState) (pipeline : Nat) : CommandBufferState :=
  if s.isRecording = false then s
  else { s with commands := s.commands ++ [Cmd.bindPipeline pipeline] }

/-- `CommandBuffer::bindVertexBuffers`. -/
def bindVertexBuffers (s : CommandBufferState) (buffer offset : Nat) :
    CommandBufferState :=
  if s.isRecording = false then s
  else { s with commands := s.commands ++ [Cmd.bindVertexBuffers buffer offset] }

/-- `CommandBuffer::bindIndexBuffer`. -/
def bindIndexBuffer (s : CommandBufferState) (buffer offset : Nat) :
    CommandBufferState :=
  if s.isRecording = false then s
  else { s with commands := s.commands ++ [Cmd.bindIndexBuffer buffer offset] }

/-- `CommandBuffer::bindDescriptorSets`. -/
def bindDescriptorSets (s : CommandBufferState) (layout : Nat)
    (sets : List Nat) : CommandBufferState :=
  if s.isRecording = false then s
  else { s with commands := s.commands ++ [Cmd.bindDescriptorSets layout sets] }

/-- `CommandBuffer::draw`. -/
def draw (s : CommandBufferState)
    (vertexCount instanceCount firstVertex firstInstance : Nat) :
    CommandBufferState :=
  if s.isRecording = false then s
  else { s with commands := s.commands ++
    [Cmd.draw vertexCount instanceCount firstVertex firstInstance] }

/-- `CommandBuffer::drawIndexed`. -/
def drawIndexed (s : CommandBufferState)
    (indexCount instanceCount firstIndex : Nat) (vertexOffset : Int)
    (firstInstance : Nat) : CommandBufferState :=
  if s.isRecording = false then s
  else { s with commands := s.commands ++
    [Cmd.drawIndexed indexCount instanceCount firstIndex vertexOffset firstInstance] }

/-- `CommandBuffer::setViewport`. -/
def setViewport (s : CommandBufferState) (first count : Nat) :
    CommandBufferState :=
  if s.isRecording = false then s
  else { s with commands := s.commands ++ [Cmd.setViewport first count] }

/-- `CommandBuffer::setScissor`. -/
def setScissor (s : CommandBufferState) (first count : Nat) :
    CommandBufferState :=
  if s.isRecording = false then s
  else { s with commands := s.commands ++ [Cmd.setScissor first count] }

/-- `CommandBuffer::setLineWidth` (the float argument is opaque). -/
def setLineWidth (s : CommandBufferState) : CommandBufferState :=
  if s.isRecording = false then s
  else { s with commands := s.commands ++ [Cmd.setLineWidth] }

/-- `CommandBuffer::setDepthBias` (the float arguments are opaque). -/
def setDepthBias (s : CommandBufferState) : CommandBufferState :=
  if s.isRecording = false then s
  else { s with commands := s.commands ++ [Cmd.setDepthBias] }

/-- `CommandBuffer::copyBuffer`. -/
def copyBuffer (s : CommandBufferState)
    (src dst size srcOffset dstOffset : Nat) : CommandBufferState :=
  if s.isRecording = false then s
  else { s with commands := s.commands ++
    [Cmd.copyBuffer src dst size srcOffset dstOffset] }

/-- `CommandBuffer::copyBufferToImage`. -/
def copyBufferToImage (s : CommandBufferState)
    (buffer image width height layerCount : Nat) : CommandBufferState :=
  if s.isRecording = false then s
  else { s with commands := s.commands ++
    [Cmd.copyBufferToImage buffer image width height layerCount] }

/-- `CommandBuffer::blitImage`. -/
def blitImage (s : CommandBufferState) (srcImage dstImage : Nat) :
    CommandBufferState :=
  if s.isRecording = false then s
  else { s with commands := s.commands ++ [Cmd.blitImage srcImage dstImage] }

/-- The closed set of layout transitions accepted by
`CommandBuffer::transitionImageLayout`. -/
def supportedTransition (oldLayout newLayout : VkImageLayout) : Bool :=
  decide ((oldLayout = VkImageLayout.undefined ∧
      newLayout = VkImageLayout.transferDstOptimal) ∨
    (oldLayout = VkImageLayout.transferDstOptimal ∧
      newLayout = VkImageLayout.shaderReadOnlyOptimal) ∨
    (oldLayout = VkImageLayout.undefined ∧
      newLayout = VkImageLayout.depthStencilAttachmentOptimal))

/-- `CommandBuffer::transitionImageLayout`: logged no-op when not recording;
in `Recording` state the three supported transitions record a pipeline
barrier with the branch's access masks and stages, and any other pair
throws `std::invalid_argument("Unsupported layout transition!")`. -/
def transitionImageLayout (s : CommandBufferState) (image : Nat)
    (oldLayout newLayout : VkImageLayout) (aspectMask : Nat) :
    Except String CommandBufferState :=
  if s.isRecording = false then Except.ok s
  else if oldLayout = VkImageLayout.undefined ∧
      newLayout = VkImageLayout.transferDstOptimal then
    Except.ok { s with commands := s.commands ++
      [Cmd.pipelineBarrier image oldLayout newLayout aspectMask
        0 ACCESS_TRANSFER_WRITE VkPipelineStage.topOfPipe VkPipelineStage.transfer] }
  else if oldLayout = VkImageLayout.transferDstOptimal ∧
      newLayout = VkImageLayout.shaderReadOnlyOptimal then
    Except.ok { s with commands := s.commands ++
      [Cmd.pipelineBarrier image oldLayout newLayout aspectMask
        ACCESS_TRANSFER_WRITE ACCESS_SHADER_READ
        VkPipelineStage.transfer VkPipelineStage.fragmentShader] }
  else if oldLayout = VkImageLayout.undefined ∧
      newLayout = VkImageLayout.depthStencilAttachmentOptimal then
    Except.ok { s with commands := s.commands ++
      [Cmd.pipelineBarrier image oldLayout newLayout aspectMask
        0 (ACCESS_DEPTH_STENCIL_READ + ACCESS_DEPTH_STENCIL_WRITE)
        VkPipelineStage.topOfPipe VkPipelineStage.earlyFragmentTests] }
  else Except.error "Unsupported layout transition"

/-- Whether an `Except` result is a thrown exception. -/
def isThrow (e : Except String CommandBufferState) : Bool :=
  match e with
  | Except.error _ => true
  | Except.ok _ => false

end CommandBuffer

/-- Environment in which all native command-buffer calls succeed. -/
def cmdEnvOk : CmdEnv := { beginOk := true, endOk := true, resetOk := true }

/-- A command buffer in `Recording` state, reached through `beginRecording`. -/
def cmdRecording : CommandBufferState :=
  CommandBuffer.beginRecording cmdEnvOk { commandBuffer := 3 } 0

/-! ## Shader cache (`ShaderSystem`, shader_system.cpp)

`vkCreateShaderModule` results are modelled by a stream of handles consumed
one per call (`0` = the native call failed); `vkDestroyShaderModule` calls
are logged into `destroyedModules`.  Shader bytecode is a word list; the
source converts words to bytes before module creation, preserving
emptiness.  The hot-reload timestamp read on the success path is not
modelled (it never affects the data relevant here). -/

/-- `ShaderSystem::ShaderData` with its in-class defaults; the reflection
record is reduced to its binding list (bindings are opaque). -/
structure ShaderData where
  vertexShader : Nat := 0
  fragmentShader : Nat := 0
  vertexPath : String := ""
  fragmentPath : String := ""
  vertexCode : List Nat := []
  fragmentCode : List Nat := []
  reflectionBindings : List Nat := []
  loaded : Bool := false
  needsReload : Bool := false
  lastModifiedTime : Nat := 0
  deriving Repr, DecidableEq

/-- Members of `ShaderSystem`, plus the module-creation oracle stream and
the log of destroyed modules. -/
structure ShaderSystemState where
  device : Nat := 0
  shaders : List (String × ShaderData) := []
  initialized : Bool := false
  hotReloadEnabled : Bool := false
  shaderCacheEnabled : Bool := false
  destroyedModules : List Nat := []
  moduleResults : List Nat := []
  deriving Repr, DecidableEq

namespace ShaderSystem

/-- Erase a key from the shader map. -/
def mapErase (m : List (String × ShaderData)) (k : String) :
    List (String × ShaderData) :=
  m.filter (fun p => decide (p.1 ≠ k))

/-- Update or append a key in the shader map
(`m_shaders[name] = shaderData`). -/
def mapInsertShader (m : List (String × ShaderData)) (k : String)
    (v : ShaderData) : List (String × ShaderData) :=
  if (m.lookup k).isSome then m.map (fun p => if p.1 = k then (k, v) else p)
  else m ++ [(k, v)]

/-- `ShaderSystem::initialize` (renamed `initShaderSystem`): sets the device
handle, enables the shader cache and marks the system initialized. -/
def initShaderSystem (s : ShaderSystemState) (device : Nat) :
    Bool × ShaderSystemState :=
  if s.initialized then (true, s)
  else
    (true, { s with
      device := device
      shaderCacheEnabled := true
      hotReloadEnabled := false
      initialized := true })

/-- `ShaderSystem::createShaderModule`: fails (null handle) when not
initialized or on empty code; otherwise performs the native call, consuming
the next oracle result. -/
def createShaderModule (s : ShaderSystemState) (code : List Nat) :
    Nat × ShaderSystemState :=
  if s.initialized = false ∨ code = [] then (0, s)
  else
    match s.moduleResults with
    | [] => (0, s)
    | r :: rest => (r, { s with moduleResults := rest })

/-- `ShaderSystem::destroyShaderModule`. -/
def destroyShaderModule (s : ShaderSystemState) (m : Nat) : ShaderSystemState :=
  if s.initialized = false ∨ m = 0 then s
  else { s with destroyedModules := s.destroyedModules ++ [m] }

/-- `ShaderSystem::unloadShader`: destroys both module handles of the named
entry (when non-null) and erases the entry. -/
def unloadShader (s : ShaderSystemState) (name : String) : ShaderSystemState :=
  if s.initialized = false then s
  else
    match s.shaders.lookup name with
    | none => s
    | some data =>
      { s with
        destroyedModules := s.destroyedModules ++
          (if data.vertexShader ≠ 0 then [data.vertexShader] else []) ++
          (if data.fragmentShader ≠ 0 then [data.fragmentShader] else [])
        shaders := mapErase s.shaders name }

/-- `ShaderSystem::generateShaderReflection`: always succeeds, pushing one
default uniform-buffer binding. -/
def generateShaderReflection (data : ShaderData) : Bool × ShaderData :=
  (true, { data with reflectionBindings := data.reflectionBindings ++ [0] })

/-- `ShaderSystem::loadShaderFromSPIRV`: reloading an existing name first
unloads it; the two modules are created in order; if the fragment module
fails, the vertex module is destroyed and `false` is returned without
inserting; on success the entry is stored with `loaded = true`. -/
def loadShaderFromSPIRV (s : ShaderSystemState) (name : String)
    (vertexCode fragmentCode : List Nat) : Bool × ShaderSystemState :=
  if s.initialized = false then (false, s)
  else
    let s0 := if (s.shaders.lookup name).isSome then unloadShader s name else s
    let data0 : ShaderData :=
      { vertexCode := vertexCode, fragmentCode := fragmentCode }
    let vres := createShaderModule s0 vertexCode
    if vres.1 = 0 then (false, vres.2)
    else
      let fres := createShaderModule vres.2 fragmentCode
      if fres.1 = 0 then
        (false, { fres.2 with
          destroyedModules := fres.2.destroyedModules ++ [vres.1] })
      else
        let refl := generateShaderReflection
          { data0 with vertexShader := vres.1, fragmentShader := fres.1 }
        let data := { refl.2 with loaded := true }
        (true, { fres.2 with shaders := mapInsertShader fres.2.shaders name data })

/-- `ShaderSystem::loadShader`: the file-based entry point; `fsys` models the
file system (`none` = the file cannot be read).  Identical to the SPIR-V
path after the two file reads. -/
def loadShader (fsys : String → Option (List Nat)) (s : ShaderSystemState)
    (name vertexPath fragmentPath : String) : Bool × ShaderSystemState :=
  if s.initialized = false then (false, s)
  else
    let s0 := if (s.shaders.lookup name).isSome then unloadShader s name else s
    match fsys vertexPath with
    | none => (false, s0)
    | some vcode =>
      match fsys fragmentPath with
      | none => (false, s0)
      | some fcode =>
        let vres := createShaderModule s0 vcode
        if vres.1 = 0 then (false, vres.2)
        else
          let fres := createShaderModule vres.2 fcode
          if fres.1 = 0 then
            (false, { fres.2 with
              destroyedModules := fres.2.destroyedModules ++ [vres.1] })
          else
            let refl := generateShaderReflection
              { vertexPath := vertexPath, fragmentPath := fragmentPath,
                vertexShader := vres.1, fragmentShader := fres.1 }
            let data := { refl.2 with loaded := true }
            (true, { fres.2 with
              shaders := mapInsertShader fres.2.shaders name data })

end ShaderSystem

/-- Shader system holding one loaded shader "a" (modules 5 and 6), whose
oracle will next return module 7 and then a failure. -/
def shaderS1 : ShaderSystemState :=
  (ShaderSystem.loadShaderFromSPIRV
    { (ShaderSystem.initShaderSystem {} 1).2 with moduleResults := [5, 6, 7, 0] }
    "a" [1] [1]).2

/-- Reloading "a" on `shaderS1`: the vertex module (7) succeeds, the
fragment module creation fails. -/
def shaderReload : Bool × ShaderSystemState :=
  ShaderSystem.loadShaderFromSPIRV shaderS1 "a" [1] [1]

/-- An initialized shader system whose oracle yields module 7 and then a
failure, with no shader loaded yet. -/
def shaderFreshMR : ShaderSystemState :=
  { (ShaderSystem.initShaderSystem {} 1).2 with moduleResults := [7, 0] }

/-- A two-file in-memory file system for the file-based load path. -/
def demoFS : String → Option (List Nat) :=
  fun p => if p = "v" then some [1] else if p = "f" then some [2] else none

/-! ## Pipeline cache (`PipelineSystem`, pipeline_system.cpp)

Native pipeline creation is modelled by `PipelineEnv`; the state counts
`vkCreateGraphicsPipelines` invocations in `nativeCreateCalls` so that
"rejected before any native call" is expressible. -/

/-- `VK_STRUCTURE_TYPE_GRAPHICS_PIPELINE_CREATE_INFO`. -/
def STRUCTURE_TYPE_GRAPHICS_PIPELINE_CREATE_INFO : Nat := 28

/-- The fields of `VkGraphicsPipelineCreateInfo` read by the pipeline
system: `sType`, `stageCount`, the per-stage stage flags, `layout`,
`renderPass`, `subpass` and whether `pDynamicState` is non-null. -/
structure GraphicsPipelineCreateInfo where
  sType : Nat := 0
  stageCount : Nat := 0
  stageFlags : List Nat := []
  layout : Nat := 0
  renderPass : Nat := 0
  subpass : Nat := 0
  hasDynamicState : Bool := false
  deriving Repr, DecidableEq

/-- `PipelineSystem::PipelineState` with its in-class defaults. -/
structure PipelineState where
  pipeline : Nat := 0
  layout : Nat := 0
  name : String := ""
  dynamicState : Bool := false
  deriving Repr, DecidableEq

/-- Members of `PipelineSystem` with their in-class defaults, plus the
count of native pipeline-creation calls. -/
structure PipelineSystemState where
  device : Nat := 0
  renderPass : Nat := 0
  pipelines : List (Nat × String) := []
  pipelineLayouts : List (Nat × String) := []
  pipelineStates : List (String × PipelineState) := []
  pipelineCache : Nat := 0
  pipelineCacheEnabled : Bool := false
  initialized : Bool := false
  nativeCreateCalls : Nat := 0
  deriving Repr, DecidableEq

/-- Outcome of `vkCreateGraphicsPipelines`. -/
structure PipelineEnv where
  createPipelineOk : Bool
  pipelineHandleSeed : Nat
  deriving Repr, DecidableEq

/-- Update or append a key in a handle-keyed name map. -/
def mapInsertHandle (m : List (Nat × String)) (k : Nat) (v : String) :
    List (Nat × String) :=
  if m.any (fun p => decide (p.1 = k)) then
    m.map (fun p => if p.1 = k then (k, v) else p)
  else m ++ [(k, v)]

namespace PipelineSystem

/-- `PipelineSystem::initialize` (renamed `initPipelineSystem`): stores the
handles and marks the system initialized.  When the pipeline cache is
enabled it calls `createPipelineCache`, which at that point still sees
`m_initialized == false` and therefore returns a null cache. -/
def initPipelineSystem (s : PipelineSystemState) (device renderPass : Nat) :
    Bool × PipelineSystemState :=
  if s.initialized then (true, s)
  else
    let s1 := { s with device := device, renderPass := renderPass }
    let s2 := if s1.pipelineCacheEnabled then { s1 with pipelineCache := 0 } else s1
    (true, { s2 with initialized := true })

/-- `PipelineSystem::validatePipelineCreateInfo`: requires the correct
`sType`, a non-zero stage count, a non-null layout and a non-null render
pass. -/
def validatePipelineCreateInfo (ci : GraphicsPipelineCreateInfo) : Bool :=
  decide (ci.sType = STRUCTURE_TYPE_GRAPHICS_PIPELINE_CREATE_INFO ∧
    ci.stageCount ≠ 0 ∧ ci.layout ≠ 0 ∧ ci.renderPass ≠ 0)

/-- `PipelineSystem::generatePipelineName`: derived from the stage flags of
the first `stageCount` stages, the layout and the render pass. -/
def generatePipelineName (ci : GraphicsPipelineCreateInfo) : String :=
  "Pipeline_" ++
    ((ci.stageFlags.take ci.stageCount).foldl
      (fun acc st => acc ++ toString st ++ "_") "") ++
    "L" ++ toString ci.layout ++ "_" ++ "R" ++ toString ci.renderPass

/-- `PipelineSystem::createGraphicsPipeline`: rejects when not initialized
or when validation fails (before any native call); otherwise invokes the
native creation, and on success stores the handle under the generated
name. -/
def createGraphicsPipeline (env : PipelineEnv) (s : PipelineSystemState)
    (ci : GraphicsPipelineCreateInfo) : Nat × PipelineSystemState :=
  if s.initialized = false then (0, s)
  else if validatePipelineCreateInfo ci = false then (0, s)
  else
    let s1 := { s with nativeCreateCalls := s.nativeCreateCalls + 1 }
    if env.createPipelineOk = false then (0, s1)
    else
      let p := env.pipelineHandleSeed + 1
      (p, { s1 with
        pipelines := mapInsertHandle s1.pipelines p (generatePipelineName ci) })

/-- Update or append a key in the pipeline-state map. -/
def mapInsertPState (m : List (String × PipelineState)) (k : String)
    (v : PipelineState) : List (String × PipelineState) :=
  if (m.lookup k).isSome then m.map (fun p => if p.1 = k then (k, v) else p)
  else m ++ [(k, v)]

/-- `PipelineSystem::createPipelineState`: wraps `createGraphicsPipeline`;
pipeline-creation failure returns `false` without touching the
pipeline-state map. -/
def createPipelineState (env : PipelineEnv) (s : PipelineSystemState)
    (name : String) (ci : GraphicsPipelineCreateInfo) :
    Bool × PipelineSystemState :=
  if s.initialized = false ∨ name = "" then (false, s)
  else
    let r := createGraphicsPipeline env s ci
    if r.1 = 0 then (false, r.2)
    else
      (true, { r.2 with
        pipelineStates := mapInsertPState r.2.pipelineStates name
          { pipeline := r.1, layout := ci.layout, name := name,
            dynamicState := ci.hasDynamicState } })

end PipelineSystem

/-- An initialized pipeline system. -/
def pipeInit : PipelineSystemState :=
  (PipelineSystem.initPipelineSystem {} 1 9).2

/-- Environment in which native pipeline creation succeeds. -/
def pipeEnvOk : PipelineEnv := { createPipelineOk := true, pipelineHandleSeed := 30 }

/-- Environment in which native pipeline creation fails. -/
def pipeEnvFail : PipelineEnv := { createPipelineOk := false, pipelineHandleSeed := 30 }

/-- A create-info passing all validation checks. -/
def validCI : GraphicsPipelineCreateInfo :=
  { sType := 28, stageCount := 2, stageFlags := [1, 16], layout := 3, renderPass := 9 }

/-- A create-info with zero stages. -/
def zeroStageCI : GraphicsPipelineCreateInfo :=
  { sType := 28, stageCount := 0, stageFlags := [], layout := 3, renderPass := 9 }

/-- A create-info with a null pipeline layout. -/
def nullLayoutCI : GraphicsPipelineCreateInfo :=
  { sType := 28, stageCount := 2, stageFlags := [1, 16], layout := 0, renderPass := 9 }

/-- A create-info with a null render pass. -/
def nullRenderPassCI : GraphicsPipelineCreateInfo :=
  { sType := 28, stageCount := 2, stageFlags := [1, 16], layout := 3, renderPass := 0 }

/-! ## Theorems -/

lemma syncInit2_eq : syncInit2 = SyncState.mk 2 0 0 true := by
  simp [syncInit2, SyncObjects.create, SyncObjects.construct]

lemma step_beginF (m c f : Nat) :
    (SyncState.mk m c f true).step SyncOp.beginF =
      SyncState.mk m c ((f + 1) % U32) true := by
  simp [SyncState.step, SyncObjects.beginFrame]

lemma step_endF (m c f : Nat) :
    (SyncState.mk m c f true).step SyncOp.endF =
      SyncState.mk m c ((f + (U32 - 1)) % U32) true := by
  simp [SyncState.step, SyncObjects.endFrame]

lemma step_nextF (m c f : Nat) :
    (SyncState.mk m c f true).step SyncOp.nextF =
      SyncState.mk m ((c + 1) % m) f true := by
  simp [SyncState.step, SyncObjects.nextFrame]

lemma one_mod_u32 : (0 + 1) % U32 = 1 := by norm_num [U32]

lemma dec_one_mod_u32 : (1 + (U32 - 1)) % U32 = 0 := by norm_num [U32]

/-- States visited during a well-formed frame loop started at a valid state
with `framesInFlight = 0` all keep `framesInFlight ≤ maxFramesInFlight`
(for `maxFramesInFlight = 2`). -/
lemma syncStates_protocol_bound (n : Nat) : ∀ c : Nat,
    ∀ s ∈ syncStates (SyncState.mk 2 c 0 true) (frameProtocol n),
      s.framesInFlight ≤ s.maxFramesInFlight := by
  induction n with
  | zero =>
    intro c s hs
    simp only [frameProtocol, syncStates, List.mem_singleton] at hs
    subst hs
    simp
  | succ n ih =>
    intro c s hs
    simp only [frameProtocol, syncStates, step_beginF, step_endF, step_nextF,
      one_mod_u32, dec_one_mod_u32, List.mem_cons] at hs
    rcases hs with h | h | h | h
    · subst h; simp
    · subst h; simp
    · subst h; simp
    · exact ih ((c + 1) % 2) s h

/-- Running a well-formed `n`-frame loop from a valid state with
`framesInFlight = 0` and `currentFrame = c < 2` ends with
`framesInFlight = 0` and `currentFrame = (c + n) % 2`. -/
lemma syncRun_protocol (n : Nat) : ∀ c : Nat, c < 2 →
    syncRun (SyncState.mk 2 c 0 true) (frameProtocol n) =
      SyncState.mk 2 ((c + n) % 2) 0 true := by
  induction n with
  | zero =>
    intro c hc
    simp only [frameProtocol, syncRun]
    congr 1
    omega
  | succ n ih =>
    intro c hc
    simp only [frameProtocol, syncRun, step_beginF, step_endF, step_nextF,
      one_mod_u32, dec_one_mod_u32]
    rw [ih ((c + 1) % 2) (by omega)]
    congr 1
    omega

/-- C1: on a `SyncObjects` instance created with `maxFramesInFlight = 2`, in
every state reachable by a well-formed frame loop (each `beginFrame` followed
by its `endFrame` and `nextFrame` before the next `beginFrame`, e.g. a
100-frame loop) the counter satisfies `framesInFlight ≤ maxFramesInFlight`;
after `n` frames `getCurrentFrame()` equals `n % 2`, so it cycles
`0,1,0,1,...`; and `nextFrame` advances a valid state by
`(currentFrame + 1) % maxFramesInFlight`. -/
theorem sync_frame_protocol_invariant (n : Nat) :
    ((syncStates syncInit2 (frameProtocol n)).all
      (fun s => decide (s.framesInFlight ≤ s.maxFramesInFlight))) = true ∧
    (syncRun syncInit2 (frameProtocol n)).currentFrame = n % 2 ∧
    ∀ s : SyncState, s.isValid = true →
      (SyncObjects.nextFrame s).currentFrame =
        (s.currentFrame + 1) % s.maxFramesInFlight := by
  refine ⟨?_, ?_, ?_⟩
  · rw [List.all_eq_true]
    intro s hs
    rw [syncInit2_eq] at hs
    exact decide_eq_true (syncStates_protocol_bound n 0 s hs)
  · rw [syncInit2_eq, syncRun_protocol n 0 (by omega)]
    simp
  · intro s hs
    simp [SyncObjects.nextFrame, hs]

/-- Witness for C1 at the concrete 100-frame loop and a concrete valid state. -/
theorem sync_frame_protocol_invariant_witness :
    ((syncStates syncInit2 (frameProtocol 100)).all
      (fun s => decide (s.framesInFlight ≤ s.maxFramesInFlight))) = true ∧
    (syncRun syncInit2 (frameProtocol 100)).currentFrame = 100 % 2 ∧
    (SyncObjects.nextFrame (SyncState.mk 2 0 0 true)).currentFrame =
      (0 + 1) % 2 :=
  ⟨(sync_frame_protocol_invariant 100).1,
   (sync_frame_protocol_invariant 100).2.1,
   (sync_frame_protocol_invariant 100).2.2 (SyncState.mk 2 0 0 true) rfl⟩

lemma sub64_of_le (a b : Nat) (hb : b ≤ a) (ha : a < U64) : sub64 a b = a - b := by
  simp only [sub64, U64] at *
  omega

lemma updateBufferTracking_bufferPools (s : AllocatorState)
    (a : BufferAllocation) (alloc : Bool) :
    (BufferAllocator.updateBufferTracking s a alloc).bufferPools = s.bufferPools := by
  unfold BufferAllocator.updateBufferTracking
  split <;> rfl

lemma updateBufferTracking_initialized (s : AllocatorState)
    (a : BufferAllocation) (alloc : Bool) :
    (BufferAllocator.updateBufferTracking s a alloc).initialized = s.initialized := by
  unfold BufferAllocator.updateBufferTracking
  split <;> rfl

lemma poolsOk_iff (s : AllocatorState) :
    BufferAllocator.poolsOk s = true ↔
      ∀ q ∈ s.bufferPools, q.usedSize ≤ q.totalSize ∧ q.totalSize < U64 := by
  simp [BufferAllocator.poolsOk, List.all_eq_true]

lemma allocateFromPoolLoop_some_inv (type : BufferType) (size : Nat) :
    ∀ ps : List BufferPool,
      (∀ q ∈ ps, q.usedSize ≤ q.totalSize ∧ q.totalSize < U64) →
      ∀ a ps1, BufferAllocator.allocateFromPoolLoop ps type size = some (a, ps1) →
        ∀ q ∈ ps1, q.usedSize ≤ q.totalSize ∧ q.totalSize < U64 := by
  intro ps
  induction ps with
  | nil =>
    intro _ a ps1 heq
    simp [BufferAllocator.allocateFromPoolLoop] at heq
  | cons pool rest ih =>
    intro h a ps1 heq
    have hpool := h pool (List.mem_cons_self _ _)
    simp only [BufferAllocator.allocateFromPoolLoop] at heq
    split at heq
    · rename_i hcond
      simp only [Option.some.injEq, Prod.mk.injEq] at heq
      obtain ⟨-, hps1⟩ := heq
      subst hps1
      intro q hq
      rcases List.mem_cons.mp hq with rfl | hq
      · refine ⟨?_, hpool.2⟩
        have hrem : sub64 pool.totalSize pool.usedSize =
            pool.totalSize - pool.usedSize := sub64_of_le _ _ hpool.1 hpool.2
        have hle : pool.usedSize + size ≤ pool.totalSize := by
          have := hcond.2
          rw [hrem] at this
          omega
        have hmod : (pool.usedSize + size) % U64 = pool.usedSize + size :=
          Nat.mod_eq_of_lt (lt_of_le_of_lt hle hpool.2)
        simpa [hmod] using hle
      · exact h q (List.mem_cons_of_mem _ hq)
    · cases hrec : BufferAllocator.allocateFromPoolLoop rest type size with
      | none => rw [hrec] at heq; simp at heq
      | some p =>
        obtain ⟨a0, rest1⟩ := p
        rw [hrec] at heq
        simp only [Option.some.injEq, Prod.mk.injEq] at heq
        obtain ⟨-, hps1⟩ := heq
        subst hps1
        intro q hq
        rcases List.mem_cons.mp hq with rfl | hq
        · exact hpool
        · exact ih (fun q2 hq2 => h q2 (List.mem_cons_of_mem _ hq2)) a0 rest1 hrec q hq

lemma allocateFromPool_poolsOk (s : AllocatorState) (t : BufferType) (sz : Nat)
    (h : BufferAllocator.poolsOk s = true) :
    BufferAllocator.poolsOk (BufferAllocator.allocateFromPool s t sz).2 = true := by
  unfold BufferAllocator.allocateFromPool
  split
  · exact h
  · cases hrec : BufferAllocator.allocateFromPoolLoop s.bufferPools t sz with
    | none => exact h
    | some p =>
      obtain ⟨a, pools1⟩ := p
      have hinv := allocateFromPoolLoop_some_inv t sz s.bufferPools
        ((poolsOk_iff s).mp h) a pools1 hrec
      rw [poolsOk_iff]
      simpa [updateBufferTracking_bufferPools] using hinv

lemma poolStates_all_ok (reqs : List (BufferType × Nat)) :
    ∀ s : AllocatorState, BufferAllocator.poolsOk s = true →
      ((BufferAllocator.poolStates s reqs).all BufferAllocator.poolsOk) = true := by
  induction reqs with
  | nil =>
    intro s hs
    simpa [BufferAllocator.poolStates] using hs
  | cons r rs ih =>
    intro s hs
    simp only [BufferAllocator.poolStates, List.all_cons, Bool.and_eq_true]
    exact ⟨hs, ih _ (allocateFromPool_poolsOk s r.1 r.2 hs)⟩

/-- C2: along any sequence of `allocateFromPool` requests every pool keeps
`usedSize ≤ totalSize`; against a single pool, an over-budget request
returns the null-handle allocation and leaves the state (hence `usedSize`)
unchanged, while a granted request returns an allocation at offset equal to
the prior `usedSize` and advances `usedSize` by exactly the requested
size. -/
theorem pool_allocation_invariant :
    (∀ (s : AllocatorState) (reqs : List (BufferType × Nat)),
      BufferAllocator.poolsOk s = true →
      ((BufferAllocator.poolStates s reqs).all BufferAllocator.poolsOk) = true) ∧
    (∀ (s : AllocatorState) (q : BufferPool) (sz : Nat),
      s.initialized = true → s.bufferPools = [q] →
      q.usedSize ≤ q.totalSize → q.totalSize < U64 →
      ((sub64 q.totalSize q.usedSize < sz →
          (BufferAllocator.allocateFromPool s q.type sz).1.buffer = 0 ∧
          (BufferAllocator.allocateFromPool s q.type sz).2 = s) ∧
        (sz ≤ sub64 q.totalSize q.usedSize →
          (BufferAllocator.allocateFromPool s q.type sz).1.offset = q.usedSize ∧
          (BufferAllocator.allocateFromPool s q.type sz).1.size = sz ∧
          (BufferAllocator.allocateFromPool s q.type sz).1.buffer = q.buffer ∧
          (BufferAllocator.allocateFromPool s q.type sz).2.bufferPools =
            [{ q with
                usedSize := q.usedSize + sz,
                allocations := q.allocations ++
                  [(BufferAllocator.allocateFromPool s q.type sz).1] }]))) := by
  constructor
  · exact fun s reqs hs => poolStates_all_ok reqs s hs
  · intro s q sz hi hps hu ht
    constructor
    · intro hlt
      have hnle : ¬ sz ≤ sub64 q.totalSize q.usedSize := by omega
      simp [BufferAllocator.allocateFromPool, hi, hps,
        BufferAllocator.allocateFromPoolLoop, hnle]
    · intro hle
      have hcond : q.type = q.type ∧ sz ≤ sub64 q.totalSize q.usedSize := ⟨rfl, hle⟩
      have hrem : sub64 q.totalSize q.usedSize = q.totalSize - q.usedSize :=
        sub64_of_le _ _ hu ht
      have hmod2 : (q.usedSize + sz) % U64 = q.usedSize + sz := by
        apply Nat.mod_eq_of_lt
        omega
      simp [BufferAllocator.allocateFromPool, hi, hps,
        BufferAllocator.allocateFromPoolLoop, hcond,
        updateBufferTracking_bufferPools, hmod2]

/-- Witness for C2: a 100-byte uniform pool grants a 16-byte request at
offset 0 and rejects a 200-byte request, and the pool invariant holds along
a concrete request sequence. -/
theorem pool_allocation_invariant_witness :
    ((BufferAllocator.poolStates poolState
        [(BufferType.Uniform, 16), (BufferType.Uniform, 200),
         (BufferType.Uniform, 84)]).all BufferAllocator.poolsOk) = true ∧
    ((BufferAllocator.allocateFromPool poolState BufferType.Uniform 200).1.buffer = 0 ∧
      (BufferAllocator.allocateFromPool poolState BufferType.Uniform 200).2 = poolState) ∧
    ((BufferAllocator.allocateFromPool poolState BufferType.Uniform 16).1.offset =
        poolQ.usedSize ∧
      (BufferAllocator.allocateFromPool poolState BufferType.Uniform 16).1.size = 16 ∧
      (BufferAllocator.allocateFromPool poolState BufferType.Uniform 16).1.buffer =
        poolQ.buffer ∧
      (BufferAllocator.allocateFromPool poolState BufferType.Uniform 16).2.bufferPools =
        [{ poolQ with
            usedSize := poolQ.usedSize + 16,
            allocations := poolQ.allocations ++
              [(BufferAllocator.allocateFromPool poolState BufferType.Uniform 16).1] }]) :=
  ⟨pool_allocation_invariant.1 poolState _ (by decide),
   (pool_allocation_invariant.2 poolState poolQ 200 (by decide) (by decide)
      (by decide) (by decide)).1 (by decide),
   (pool_allocation_invariant.2 poolState poolQ 16 (by decide) (by decide)
      (by decide) (by decide)).2 (by decide)⟩

/-- C3 counterexample: with every native call succeeding, an initialized
allocator without a memory manager returns a bound (non-null) buffer for a
request whose memory-property mask (bit 1, host-visible) is satisfied by no
memory type of the device — the fallback path never consults the
memory-property table, so "no memory type satisfies the requested
properties" does not produce the null-handle sentinel. -/
theorem allocateBuffer_properties_counterexample :
    (envOkay.memoryTypePropertyFlags.all fun f => decide ((f &&& 1) ≠ 1)) = true ∧
    allocInit.initialized = true ∧
    allocInit.hasMemoryManager = false ∧
    (BufferAllocator.allocateBuffer allocInit envOkay BufferType.Uniform 16 8 1).1.buffer
      = 11 := by
  decide

/-- C3 amended: on the fallback path (no memory manager), `allocateBuffer`
returns the null-handle sentinel exactly when the allocator is not
initialized, native buffer creation fails, the fallback memory allocation
fails, or binding fails; the requested memory properties play no role. -/
theorem allocateBuffer_null_iff (s : AllocatorState) (env : VkEnv)
    (t : BufferType) (size usage properties : Nat)
    (hmm : s.hasMemoryManager = false) :
    (BufferAllocator.allocateBuffer s env t size usage properties).1.buffer = 0 ↔
      (s.initialized = false ∨ env.createBufferOk = false ∨
        env.allocateMemoryOk = false ∨ env.bindOk = false) := by
  cases hi : s.initialized <;> cases hc : env.createBufferOk <;>
    cases ha : env.allocateMemoryOk <;> cases hb : env.bindOk <;>
      simp [BufferAllocator.allocateBuffer, BufferAllocator.createBufferInternal,
        BufferAllocator.updateBufferTracking, hmm, hi, hc, ha, hb]

/-- Witness for the amended C3 at a concrete allocator and environment. -/
theorem allocateBuffer_null_iff_witness :
    ((BufferAllocator.allocateBuffer allocInit envOkay BufferType.Vertex 8 4 1).1.buffer = 0 ↔
      (allocInit.initialized = false ∨ envOkay.createBufferOk = false ∨
        envOkay.allocateMemoryOk = false ∨ envOkay.bindOk = false)) :=
  allocateBuffer_null_iff allocInit envOkay BufferType.Vertex 8 4 1 rfl

lemma tracking_roundtrip64 (x y : Nat) (hx : x < U64) :
    sub64 ((x + y) % U64) y = x := by
  simp only [sub64, U64] at *
  omega

/-- C4: a successful `allocateBuffer` immediately followed by
`deallocateBuffer` of the returned allocation restores
`totalAllocatedMemory` and `bufferCount` to their prior values. -/
theorem alloc_dealloc_roundtrip (s : AllocatorState) (env : VkEnv)
    (t : BufferType) (size usage properties : Nat)
    (htot : s.totalAllocatedMemory < U64) (hcnt : s.bufferCount < U64)
    (hsz : 0 < size)
    (hsucc : (BufferAllocator.allocateBuffer s env t size usage properties).1.buffer ≠ 0) :
    (BufferAllocator.deallocateBuffer
        (BufferAllocator.allocateBuffer s env t size usage properties).2
        (BufferAllocator.allocateBuffer s env t size usage properties).1).totalAllocatedMemory
      = s.totalAllocatedMemory ∧
    (BufferAllocator.deallocateBuffer
        (BufferAllocator.allocateBuffer s env t size usage properties).2
        (BufferAllocator.allocateBuffer s env t size usage properties).1).bufferCount
      = s.bufferCount := by
  cases hi : s.initialized <;> cases hc : env.createBufferOk <;>
    cases hm2 : s.hasMemoryManager <;> cases ha : env.allocateMemoryOk <;>
      cases hb : env.bindOk <;>
        simp [BufferAllocator.allocateBuffer, BufferAllocator.createBufferInternal,
          BufferAllocator.updateBufferTracking, BufferAllocator.deallocateBuffer,
          BufferAllocator.destroyBufferInternal, hi, hc, hm2, ha, hb] at hsucc ⊢ <;>
        exact ⟨tracking_roundtrip64 _ _ htot, tracking_roundtrip64 _ _ hcnt⟩

/-- Witness for C4 at a concrete allocator, environment and size. -/
theorem alloc_dealloc_roundtrip_witness :
    (BufferAllocator.deallocateBuffer
        (BufferAllocator.allocateBuffer allocInit envOkay BufferType.Vertex 32 4 1).2
        (BufferAllocator.allocateBuffer allocInit envOkay BufferType.Vertex 32 4 1).1).totalAllocatedMemory
      = allocInit.totalAllocatedMemory ∧
    (BufferAllocator.deallocateBuffer
        (BufferAllocator.allocateBuffer allocInit envOkay BufferType.Vertex 32 4 1).2
        (BufferAllocator.allocateBuffer allocInit envOkay BufferType.Vertex 32 4 1).1).bufferCount
      = allocInit.bufferCount :=
  alloc_dealloc_roundtrip allocInit envOkay BufferType.Vertex 32 4 1
    (by decide) (by decide) (by decide) (by decide)

/-- C9: after `initialize`, every per-type alignment is at least 1 and the
Uniform alignment is at least 256, whatever the device limits report
(including 0). -/
theorem alignment_bounds (s : AllocatorState) (env : VkEnv)
    (device physicalDevice : Nat) (hasMM : Bool)
    (hs : s.initialized = false) :
    (∀ t : BufferType, t ≠ BufferType.Count →
      1 ≤ BufferAllocator.getAlignmentRequirement
          (BufferAllocator.initAllocator s env device physicalDevice hasMM).2 t) ∧
    256 ≤ BufferAllocator.getAlignmentRequirement
        (BufferAllocator.initAllocator s env device physicalDevice hasMM).2
        BufferType.Uniform := by
  constructor
  · intro t ht
    cases t <;>
      simp_all [BufferAllocator.initAllocator, BufferAllocator.getAlignmentRequirement,
        BufferType.arrayIndex]
  · simp [BufferAllocator.initAllocator, hs, BufferAllocator.getAlignmentRequirement,
      BufferType.arrayIndex]

/-- Witness for C9 at a device whose reported limits are both 0. -/
theorem alignment_bounds_witness :
    1 ≤ BufferAllocator.getAlignmentRequirement
        (BufferAllocator.initAllocator {} envOkay 1 2 false).2 BufferType.Vertex ∧
    256 ≤ BufferAllocator.getAlignmentRequirement
        (BufferAllocator.initAllocator {} envOkay 1 2 false).2 BufferType.Uniform :=
  ⟨(alignment_bounds {} envOkay 1 2 false rfl).1 BufferType.Vertex (by decide),
   (alignment_bounds {} envOkay 1 2 false rfl).2⟩

/-- C10: the deallocation branch of `updateBufferTracking` computes in
unsigned modular arithmetic: when the deallocated size exceeds the current
`totalAllocatedMemory` the counter becomes
`(totalAllocatedMemory - size) mod 2^64` — strictly larger than before, not
clamped to zero (the `std::max` with 0 is the identity on an unsigned
operand, conjunct three).  The situation is reachable by calling
`deallocateFromPool` twice on the same pool sub-allocation: the second call
still decrements the counters. -/
theorem dealloc_counter_underflow :
    (∀ (s : AllocatorState) (a : BufferAllocation),
      s.totalAllocatedMemory < U64 → a.size < U64 →
      s.totalAllocatedMemory < a.size →
      (BufferAllocator.updateBufferTracking s a false).totalAllocatedMemory =
        (s.totalAllocatedMemory + (U64 - a.size)) % U64 ∧
      s.totalAllocatedMemory <
        (BufferAllocator.updateBufferTracking s a false).totalAllocatedMemory ∧
      (BufferAllocator.updateBufferTracking s a false).totalAllocatedMemory =
        sub64 s.totalAllocatedMemory a.size) ∧
    (afterFirstPoolFree.totalAllocatedMemory = 0 ∧
      afterSecondPoolFree.totalAllocatedMemory = U64 - 16 ∧
      afterFirstPoolFree.totalAllocatedMemory <
        afterSecondPoolFree.totalAllocatedMemory) := by
  constructor
  · intro s a h1 h2 h3
    simp only [BufferAllocator.updateBufferTracking, Bool.false_eq_true, if_false]
    refine ⟨?_, ?_, ?_⟩ <;> simp only [sub64, U64] at * <;> omega
  · refine ⟨by decide, by decide, by decide⟩

/-- Witness for C10 at a concrete state and allocation. -/
theorem dealloc_counter_underflow_witness :
    (BufferAllocator.updateBufferTracking {} underflowAlloc false).totalAllocatedMemory =
      (({} : AllocatorState).totalAllocatedMemory + (U64 - underflowAlloc.size)) % U64 ∧
    afterSecondPoolFree.totalAllocatedMemory = U64 - 16 :=
  ⟨(dealloc_counter_underflow.1 {} underflowAlloc (by decide) (by decide) (by decide)).1,
   dealloc_counter_underflow.2.2.1⟩

/-- C5: while not in `Recording` state every drawing/binding/copy/barrier
member function is a logged no-op that issues no native command and changes
no state (the command log and all fields are untouched, and
`transitionImageLayout` returns normally); and `beginRecording` while
already in `Recording` state is a logged no-op leaving the surface in
`Recording` state. -/
theorem command_surface_guards (env : CmdEnv) (s s2 : CommandBufferState)
    (h : s.isRecording = false) (h2 : s2.isRecording = true) :
    (∀ a b c d, CommandBuffer.draw s a b c d = s) ∧
    (∀ flags, CommandBuffer.beginRecording env s2 flags = s2 ∧
      (CommandBuffer.beginRecording env s2 flags).isRecording = true) ∧
    (∀ img ol nl am,
      CommandBuffer.transitionImageLayout s img ol nl am = Except.ok s) ∧
    (∀ rp fb, CommandBuffer.beginRenderPass s rp fb = s) ∧
    CommandBuffer.endRenderPass s = s ∧
    (∀ p, CommandBuffer.bindPipeline s p = s) ∧
    (∀ b o, CommandBuffer.bindVertexBuffers s b o = s) ∧
    (∀ b o, CommandBuffer.bindIndexBuffer s b o = s) ∧
    (∀ l ds, CommandBuffer.bindDescriptorSets s l ds = s) ∧
    (∀ a b c vo e, CommandBuffer.drawIndexed s a b c vo e = s) ∧
    (∀ a b, CommandBuffer.setViewport s a b = s) ∧
    (∀ a b, CommandBuffer.setScissor s a b = s) ∧
    CommandBuffer.setLineWidth s = s ∧
    CommandBuffer.setDepthBias s = s ∧
    (∀ a b c d e, CommandBuffer.copyBuffer s a b c d e = s) ∧
    (∀ b i w hh lc, CommandBuffer.copyBufferToImage s b i w hh lc = s) ∧
    (∀ a b, CommandBuffer.blitImage s a b = s) := by
  simp [CommandBuffer.draw, CommandBuffer.beginRecording,
    CommandBuffer.transitionImageLayout, CommandBuffer.beginRenderPass,
    CommandBuffer.endRenderPass, CommandBuffer.bindPipeline,
    CommandBuffer.bindVertexBuffers, CommandBuffer.bindIndexBuffer,
    CommandBuffer.bindDescriptorSets, CommandBuffer.drawIndexed,
    CommandBuffer.setViewport, CommandBuffer.setScissor,
    CommandBuffer.setLineWidth, CommandBuffer.setDepthBias,
    CommandBuffer.copyBuffer, CommandBuffer.copyBufferToImage,
    CommandBuffer.blitImage, h, h2]

/-- Witness for C5 at a concrete idle surface and a concrete recording
surface. -/
theorem command_surface_guards_witness :
    CommandBuffer.draw { commandBuffer := 3 } 3 1 0 0 = { commandBuffer := 3 } ∧
    (CommandBuffer.beginRecording cmdEnvOk cmdRecording 0 = cmdRecording ∧
      (CommandBuffer.beginRecording cmdEnvOk cmdRecording 0).isRecording = true) ∧
    CommandBuffer.transitionImageLayout { commandBuffer := 3 } 7
      VkImageLayout.undefined VkImageLayout.general 1 =
      Except.ok { commandBuffer := 3 } :=
  ⟨(command_surface_guards cmdEnvOk { commandBuffer := 3 } cmdRecording rfl
      (by decide)).1 3 1 0 0,
   (command_surface_guards cmdEnvOk { commandBuffer := 3 } cmdRecording rfl
      (by decide)).2.1 0,
   (command_surface_guards cmdEnvOk { commandBuffer := 3 } cmdRecording rfl
      (by decide)).2.2.1 7 VkImageLayout.undefined VkImageLayout.general 1⟩

/-- C8: in `Recording` state, `transitionImageLayout` throws exactly when
the layout pair is outside the closed set of three supported transitions,
and each of the three supported pairs records the corresponding pipeline
barrier and returns normally. -/
theorem transition_layout_closed_set (s : CommandBufferState)
    (h : s.isRecording = true) (img aspect : Nat)
    (oldL newL : VkImageLayout) :
    (CommandBuffer.isThrow
        (CommandBuffer.transitionImageLayout s img oldL newL aspect) = true ↔
      CommandBuffer.supportedTransition oldL newL = false) ∧
    CommandBuffer.transitionImageLayout s img VkImageLayout.undefined
        VkImageLayout.transferDstOptimal aspect =
      Except.ok { s with commands := s.commands ++
        [Cmd.pipelineBarrier img VkImageLayout.undefined
          VkImageLayout.transferDstOptimal aspect 0 ACCESS_TRANSFER_WRITE
          VkPipelineStage.topOfPipe VkPipelineStage.transfer] } ∧
    CommandBuffer.transitionImageLayout s img VkImageLayout.transferDstOptimal
        VkImageLayout.shaderReadOnlyOptimal aspect =
      Except.ok { s with commands := s.commands ++
        [Cmd.pipelineBarrier img VkImageLayout.transferDstOptimal
          VkImageLayout.shaderReadOnlyOptimal aspect ACCESS_TRANSFER_WRITE
          ACCESS_SHADER_READ VkPipelineStage.transfer
          VkPipelineStage.fragmentShader] } ∧
    CommandBuffer.transitionImageLayout s img VkImageLayout.undefined
        VkImageLayout.depthStencilAttachmentOptimal aspect =
      Except.ok { s with commands := s.commands ++
        [Cmd.pipelineBarrier img VkImageLayout.undefined
          VkImageLayout.depthStencilAttachmentOptimal aspect 0
          (ACCESS_DEPTH_STENCIL_READ + ACCESS_DEPTH_STENCIL_WRITE)
          VkPipelineStage.topOfPipe VkPipelineStage.earlyFragmentTests] } := by
  refine ⟨?_, ?_, ?_, ?_⟩
  · cases oldL <;> cases newL <;>
      simp [CommandBuffer.transitionImageLayout,
        CommandBuffer.supportedTransition, CommandBuffer.isThrow, h]
  · simp [CommandBuffer.transitionImageLayout, h]
  · simp [CommandBuffer.transitionImageLayout, h]
  · simp [CommandBuffer.transitionImageLayout, h]

/-- Witness for C8 at a concrete recording surface and the unsupported pair
(general, general). -/
theorem transition_layout_closed_set_witness :
    (CommandBuffer.isThrow (CommandBuffer.transitionImageLayout cmdRecording 7
        VkImageLayout.general VkImageLayout.general 1) = true ↔
      CommandBuffer.supportedTransition VkImageLayout.general
        VkImageLayout.general = false) ∧
    CommandBuffer.transitionImageLayout cmdRecording 7 VkImageLayout.undefined
        VkImageLayout.transferDstOptimal 1 =
      Except.ok { cmdRecording with commands := cmdRecording.commands ++
        [Cmd.pipelineBarrier 7 VkImageLayout.undefined
          VkImageLayout.transferDstOptimal 1 0 ACCESS_TRANSFER_WRITE
          VkPipelineStage.topOfPipe VkPipelineStage.transfer] } :=
  ⟨(transition_layout_closed_set cmdRecording (by decide) 7 1
      VkImageLayout.general VkImageLayout.general).1,
   (transition_layout_closed_set cmdRecording (by decide) 7 1
      VkImageLayout.general VkImageLayout.general).2.1⟩

/-- C6 counterexample: reloading the already-present shader "a" when the
fragment module creation fails returns `false` and destroys the fresh
vertex module (7) — but the shader map is NOT unchanged: the prior entry
for "a" was unloaded before the failure, so the map lost the key. -/
theorem shader_reload_failure_counterexample :
    (shaderS1.shaders.lookup "a").isSome = true ∧
    shaderS1.moduleResults = [7, 0] ∧
    shaderReload.1 = false ∧
    7 ∈ shaderReload.2.destroyedModules ∧
    ¬ shaderReload.2.shaders = shaderS1.shaders ∧
    (shaderReload.2.shaders.lookup "a").isSome = false := by
  decide

lemma mapErase_of_lookup_none (m : List (String × ShaderData)) (k : String)
    (h : m.lookup k = none) : ShaderSystem.mapErase m k = m := by
  induction m with
  | nil => rfl
  | cons p rest ih =>
    simp only [List.lookup] at h
    cases hbeq : (k == p.1) with
    | true => simp [hbeq] at h
    | false =>
      simp only [hbeq] at h
      have hne : ¬ p.1 = k := by
        intro he
        rw [he] at hbeq
        simp at hbeq
      simp only [ShaderSystem.mapErase] at ih ⊢
      have hstep : List.filter (fun q => decide (q.1 ≠ k)) (p :: rest) =
          p :: List.filter (fun q => decide (q.1 ≠ k)) rest := by
        simp [List.filter_cons, hne]
      rw [hstep, ih h]

lemma unloadShader_facts (s : ShaderSystemState) (name : String)
    (hi : s.initialized = true) :
    (ShaderSystem.unloadShader s name).initialized = true ∧
    (ShaderSystem.unloadShader s name).moduleResults = s.moduleResults ∧
    (ShaderSystem.unloadShader s name).shaders =
      ShaderSystem.mapErase s.shaders name := by
  unfold ShaderSystem.unloadShader
  rw [hi]
  simp only [Bool.true_eq_false, if_false]
  cases hlk : s.shaders.lookup name with
  | none => exact ⟨hi, rfl, (mapErase_of_lookup_none _ _ hlk).symm⟩
  | some d => exact ⟨rfl, rfl, rfl⟩

lemma createGraphicsPipeline_pipelineStates (env : PipelineEnv)
    (s : PipelineSystemState) (ci : GraphicsPipelineCreateInfo) :
    (PipelineSystem.createGraphicsPipeline env s ci).2.pipelineStates =
      s.pipelineStates := by
  unfold PipelineSystem.createGraphicsPipeline
  split
  · rfl
  · split
    · rfl
    · split <;> rfl

/-- C6 amended: when the fragment module creation fails during
`loadShaderFromSPIRV` or `loadShader`, the vertex module is destroyed, the
call returns `false`, and no entry is inserted: the shader map equals the
prior map with the loaded name removed (so it is unchanged exactly when the
name was not already present — a reload that fails loses the prior entry,
which was unloaded before the failure); and a `createPipelineState` call in
which pipeline creation fails returns `false` and leaves the pipeline-state
map unchanged. -/
theorem failed_registration_atomicity :
    (∀ (s : ShaderSystemState) (name : String) (vc fc : List Nat)
        (v : Nat) (rest : List Nat),
      s.initialized = true → vc ≠ [] → fc ≠ [] →
      s.moduleResults = v :: 0 :: rest → v ≠ 0 →
      (ShaderSystem.loadShaderFromSPIRV s name vc fc).1 = false ∧
      (ShaderSystem.loadShaderFromSPIRV s name vc fc).2.shaders =
        ShaderSystem.mapErase s.shaders name ∧
      v ∈ (ShaderSystem.loadShaderFromSPIRV s name vc fc).2.destroyedModules) ∧
    (∀ (fsys : String → Option (List Nat)) (s : ShaderSystemState)
        (name vp fp : String) (vc fc : List Nat) (v : Nat) (rest : List Nat),
      s.initialized = true → fsys vp = some vc → fsys fp = some fc →
      vc ≠ [] → fc ≠ [] →
      s.moduleResults = v :: 0 :: rest → v ≠ 0 →
      (ShaderSystem.loadShader fsys s name vp fp).1 = false ∧
      (ShaderSystem.loadShader fsys s name vp fp).2.shaders =
        ShaderSystem.mapErase s.shaders name ∧
      v ∈ (ShaderSystem.loadShader fsys s name vp fp).2.destroyedModules) ∧
    (∀ (env : PipelineEnv) (s : PipelineSystemState) (name : String)
        (ci : GraphicsPipelineCreateInfo),
      (PipelineSystem.createGraphicsPipeline env s ci).1 = 0 →
      (PipelineSystem.createPipelineState env s name ci).1 = false ∧
      (PipelineSystem.createPipelineState env s name ci).2.pipelineStates =
        s.pipelineStates) := by
  refine ⟨?_, ?_, ?_⟩
  · intro s name vc fc v rest hi hvc hfc hmr hv
    by_cases hlk : (s.shaders.lookup name).isSome = true
    · obtain ⟨hi0, hmr0, hsh0⟩ := unloadShader_facts s name hi
      simp [ShaderSystem.loadShaderFromSPIRV, ShaderSystem.createShaderModule,
        hi, hlk, hi0, hmr0, hmr, hv, hvc, hfc, hsh0]
    · have hlk2 : (s.shaders.lookup name).isSome = false := by
        cases hx : (s.shaders.lookup name).isSome with
        | false => rfl
        | true => exact absurd hx hlk
      have hnone : s.shaders.lookup name = none := by
        cases hx : s.shaders.lookup name with
        | none => rfl
        | some d => rw [hx] at hlk2; simp at hlk2
      simp [ShaderSystem.loadShaderFromSPIRV, ShaderSystem.createShaderModule,
        hi, hlk2, hmr, hv, hvc, hfc, mapErase_of_lookup_none _ _ hnone]
  · intro fsys s name vp fp vc fc v rest hi hfsv hfsf hvc hfc hmr hv
    by_cases hlk : (s.shaders.lookup name).isSome = true
    · obtain ⟨hi0, hmr0, hsh0⟩ := unloadShader_facts s name hi
      simp [ShaderSystem.loadShader, ShaderSystem.createShaderModule,
        hi, hlk, hi0, hmr0, hmr, hv, hvc, hfc, hsh0, hfsv, hfsf]
    · have hlk2 : (s.shaders.lookup name).isSome = false := by
        cases hx : (s.shaders.lookup name).isSome with
        | false => rfl
        | true => exact absurd hx hlk
      have hnone : s.shaders.lookup name = none := by
        cases hx : s.shaders.lookup name with
        | none => rfl
        | some d => rw [hx] at hlk2; simp at hlk2
      simp [ShaderSystem.loadShader, ShaderSystem.createShaderModule,
        hi, hlk2, hmr, hv, hvc, hfc, mapErase_of_lookup_none _ _ hnone,
        hfsv, hfsf]
  · intro env s name ci h0
    by_cases hcase : s.initialized = false ∨ name = ""
    · simp [PipelineSystem.createPipelineState, hcase]
    · simp [PipelineSystem.createPipelineState, hcase, h0,
        createGraphicsPipeline_pipelineStates]

/-- Witness for the amended C6 at concrete shader systems, file system and
pipeline system. -/
theorem failed_registration_atomicity_witness :
    ((ShaderSystem.loadShaderFromSPIRV shaderFreshMR "b" [1] [1]).1 = false ∧
      (ShaderSystem.loadShaderFromSPIRV shaderFreshMR "b" [1] [1]).2.shaders =
        ShaderSystem.mapErase shaderFreshMR.shaders "b" ∧
      7 ∈ (ShaderSystem.loadShaderFromSPIRV shaderFreshMR "b" [1] [1]).2.destroyedModules) ∧
    ((ShaderSystem.loadShader demoFS shaderFreshMR "b" "v" "f").1 = false ∧
      (ShaderSystem.loadShader demoFS shaderFreshMR "b" "v" "f").2.shaders =
        ShaderSystem.mapErase shaderFreshMR.shaders "b" ∧
      7 ∈ (ShaderSystem.loadShader demoFS shaderFreshMR "b" "v" "f").2.destroyedModules) ∧
    ((PipelineSystem.createPipelineState pipeEnvFail pipeInit "p" validCI).1 = false ∧
      (PipelineSystem.createPipelineState pipeEnvFail pipeInit "p" validCI).2.pipelineStates =
        pipeInit.pipelineStates) :=
  ⟨failed_registration_atomicity.1 shaderFreshMR "b" [1] [1] 7 []
      (by decide) (by decide) (by decide) (by decide) (by decide),
   failed_registration_atomicity.2.1 demoFS shaderFreshMR "b" "v" "f" [1] [2] 7 []
      (by decide) (by decide) (by decide) (by decide) (by decide) (by decide) (by decide),
   failed_registration_atomicity.2.2 pipeEnvFail pipeInit "p" validCI (by decide)⟩

/-- C7: on an initialized pipeline system, a create-info with zero stages, a
null layout or a null render pass (each condition independently suffices) is
rejected: `createGraphicsPipeline` returns the null handle and leaves the
state — in particular the pipeline map and the count of native
pipeline-creation calls — completely unchanged. -/
theorem pipeline_validation_rejects (env : PipelineEnv)
    (s : PipelineSystemState) (ci : GraphicsPipelineCreateInfo)
    (hi : s.initialized = true)
    (hbad : ci.stageCount = 0 ∨ ci.layout = 0 ∨ ci.renderPass = 0) :
    (PipelineSystem.createGraphicsPipeline env s ci).1 = 0 ∧
    (PipelineSystem.createGraphicsPipeline env s ci).2 = s ∧
    (PipelineSystem.createGraphicsPipeline env s ci).2.pipelines = s.pipelines ∧
    (PipelineSystem.createGraphicsPipeline env s ci).2.nativeCreateCalls =
      s.nativeCreateCalls := by
  have hvalid : PipelineSystem.validatePipelineCreateInfo ci = false := by
    rw [PipelineSystem.validatePipelineCreateInfo, decide_eq_false_iff_not]
    rintro ⟨-, h2, h3, h4⟩
    rcases hbad with hb | hb | hb
    · exact h2 hb
    · exact h3 hb
    · exact h4 hb
  simp [PipelineSystem.createGraphicsPipeline, hi, hvalid]

/-- Witness for C7: each of the three invalid create-infos is rejected on a
concrete initialized pipeline system with a working native environment. -/
theorem pipeline_validation_rejects_witness :
    ((PipelineSystem.createGraphicsPipeline pipeEnvOk pipeInit zeroStageCI).1 = 0 ∧
      (PipelineSystem.createGraphicsPipeline pipeEnvOk pipeInit zeroStageCI).2 = pipeInit ∧
      (PipelineSystem.createGraphicsPipeline pipeEnvOk pipeInit zeroStageCI).2.pipelines =
        pipeInit.pipelines ∧
      (PipelineSystem.createGraphicsPipeline pipeEnvOk pipeInit zeroStageCI).2.nativeCreateCalls =
        pipeInit.nativeCreateCalls) ∧
    ((PipelineSystem.createGraphicsPipeline pipeEnvOk pipeInit nullLayoutCI).1 = 0 ∧
      (PipelineSystem.createGraphicsPipeline pipeEnvOk pipeInit nullLayoutCI).2 = pipeInit ∧
      (PipelineSystem.createGraphicsPipeline pipeEnvOk pipeInit nullLayoutCI).2.pipelines =
        pipeInit.pipelines ∧
      (PipelineSystem.createGraphicsPipeline pipeEnvOk pipeInit nullLayoutCI).2.nativeCreateCalls =
        pipeInit.nativeCreateCalls) ∧
    ((PipelineSystem.createGraphicsPipeline pipeEnvOk pipeInit nullRenderPassCI).1 = 0 ∧
      (PipelineSystem.createGraphicsPipeline pipeEnvOk pipeInit nullRenderPassCI).2 = pipeInit ∧
      (PipelineSystem.createGraphicsPipeline pipeEnvOk pipeInit nullRenderPassCI).2.pipelines =
        pipeInit.pipelines ∧
      (PipelineSystem.createGraphicsPipeline pipeEnvOk pipeInit nullRenderPassCI).2.nativeCreateCalls =
        pipeInit.nativeCreateCalls) :=
  ⟨pipeline_validation_rejects pipeEnvOk pipeInit zeroStageCI (by decide)
      (Or.inl rfl),
   pipeline_validation_rejects pipeEnvOk pipeInit nullLayoutCI (by decide)
      (Or.inr (Or.inl rfl)),
   pipeline_validation_rejects pipeEnvOk pipeInit nullRenderPassCI (by decide)
      (Or.inr (Or.inr rfl))⟩

end VortexEngine
